import Mathlib

/-!
Shallow embedding of the pandas HTTP service in src/python/server.py.

The service exposes four FastAPI handlers: read_csv, describe, plot and
analyze.  Each handler wraps its whole body in a try/except that converts
any raised exception e into HTTPException(status_code=400, detail=str(e)).
We embed each handler as a total Lean function returning
Except (Nat × String) Result, where the error component carries the HTTP
status together with the detail string.

Library behaviour that the handlers delegate to (pandas ≥ 2.x, matplotlib,
seaborn) is modelled at the granularity the handlers observe:
  * JSON column values are numbers, strings or null.  Booleans and the
    numeric value of floats are irrelevant to every claim, so numbers are
    carried as integers.
  * pandas dtype inference for a column built from a Python list: the
    column gets a numeric dtype iff it holds at least one number and
    nothing but numbers and nulls; otherwise dtype object.
  * DataFrame.describe() describes the numeric columns when at least one
    exists, else all columns; it raises on a frame without columns.  Of
    the per-column statistics only the count statistic (the number of
    non-null entries) is carried, since no claim mentions any other.
  * DataFrame.corr() with its pandas ≥ 2.0 default numeric_only=False
    raises when a non-numeric column is present.
  * str(HTTPException(400, d)) = "400: " ++ d (starlette's HTTPException
    defines its textual form as "{status_code}: {detail}"), which matters
    because HTTPExceptions raised inside the try block are caught by the
    generic except clause and re-wrapped.
-/

deriving instance DecidableEq for Except

/-- A scalar value of a JSON request column: a number, a string, or null.
Numbers are carried as integers because no claim depends on numeric
arithmetic, only on whether a value is numeric. -/
inductive Val where
  | num (n : ℤ)
  | str (s : String)
  | null
deriving DecidableEq, Repr

/-- A column of a request body: the Python value list under one key. -/
abbrev Column := List Val

/-- A request body Dict[str, List[Any]]: an insertion-ordered mapping from
column name to value list, as Python dicts preserve insertion order.
Python dict keys are unique; theorems that need uniqueness assume it. -/
abbrev ColMap := List (String × Column)

/-- Whether a value is a number. -/
def isNumVal : Val → Bool
  | .num _ => true
  | _ => false

/-- Whether a value is null. -/
def isNullVal : Val → Bool
  | .null => true
  | _ => false

/-- pandas gives a column built from a Python list a numeric dtype iff the
list holds at least one number and nothing but numbers and nulls
(e.g. [1, None] is float64, while [None, None], [] and any list holding a
string are object). -/
def numericCol (c : Column) : Bool :=
  c.any isNumVal && c.all (fun v => isNumVal v || isNullVal v)

/-- The inferred dtype of a column, collapsed to the numeric/object split;
the claims only ever inspect which columns a dtype mapping covers. -/
inductive Dtype where
  | float64
  | object
deriving DecidableEq, Repr

/-- df.dtypes for one column (as reported after .astype(str), collapsed to
the numeric/object split). -/
def inferDtype (c : Column) : Dtype :=
  if numericCol c then .float64 else .object

/-- df.count() for one column: the number of non-null entries. -/
def countNonNull (c : Column) : ℕ :=
  (c.filter (fun v => !isNullVal v)).length

/-- pd.DataFrame(dict) succeeds iff all value lists share one length. -/
def sameLengths : ColMap → Bool
  | [] => true
  | (_, c) :: rest => rest.all (fun p => p.2.length = c.length)

/-- pd.DataFrame(data) as called at the top of describe, plot and analyze:
on equal column lengths it yields the frame, otherwise it raises
ValueError("All arrays must be of the same length").  The frame itself is
the column mapping. -/
def mkDataFrame (data : ColMap) : Except String ColMap :=
  if sameLengths data then .ok data else .error "All arrays must be of the same length"

/-- The except-clause at the boundary of every handler:
raise HTTPException(status_code=400, detail=str(e)) for any exception e. -/
def toHTTP : Except String α → Except (ℕ × String) α
  | .ok a => .ok a
  | .error e => .error (400, e)

/-- The columns DataFrame.describe() reports on: the numeric columns when
at least one exists, otherwise all columns. -/
def describeCols (df : ColMap) : ColMap :=
  if (df.filter (fun p => numericCol p.2)).isEmpty then df
  else df.filter (fun p => numericCol p.2)

/-- DataFrame.describe(): raises ValueError on a frame without columns,
else yields the count statistic for each described column.  The other
statistics (mean, std, quartiles, ...) are not carried because no claim
mentions them. -/
def describeDF (df : ColMap) : Except String (List (String × ℕ)) :=
  if df.isEmpty then .error "Cannot describe a DataFrame without columns"
  else .ok ((describeCols df).map (fun p => (p.1, countNonNull p.2)))

/-- Response body of the describe handler: the statistics table (count per
described column) and the dtype of every frame column. -/
structure DescribeResult where
  statistics : List (String × ℕ)
  dtypes : List (String × Dtype)
deriving DecidableEq, Repr

/-- The describe handler (server.py lines 29-40): build the frame,
describe it, report dtypes, turning any exception into a 400. -/
def describe (data : ColMap) : Except (ℕ × String) DescribeResult :=
  toHTTP (do
    let df ← mkDataFrame data
    let stats ← describeDF df
    pure ⟨stats, df.map (fun p => (p.1, inferDtype p.2))⟩)

/-- df[columns] as used in analyze: selects the named columns in the given
order; raises KeyError when one is absent.  (The real message lists the
missing labels; its exact text is not claim-relevant.) -/
def selectCols (df : ColMap) (cs : List String) : Except String ColMap :=
  if cs.all (fun c => (List.lookup c df).isSome) then
    .ok (cs.map (fun c => (c, (List.lookup c df).getD [])))
  else .error "not in index"

/-- Response body of the analyze handler.  The description carries the
count statistic per described column, the correlation matrix is carried as
the list of columns it covers (its numeric entries are not claim-relevant),
and info carries dtypes and non-null counts for every frame column. -/
structure AnalyzeResult where
  description : List (String × ℕ)
  correlationCols : List String
  dtypes : List (String × Dtype)
  nonNullCounts : List (String × ℕ)
deriving DecidableEq, Repr

/-- The analyze handler (server.py lines 86-112): build the frame, apply
the column restriction when the columns list is truthy (Python: a provided
AND non-empty list), then describe, correlate the numeric columns
(df.select_dtypes(include=[np.number]).corr()), and report dtypes and
non-null counts; any exception becomes a 400. -/
def analyze (data : ColMap) (columns : Option (List String)) : Except (ℕ × String) AnalyzeResult :=
  toHTTP (do
    let df0 ← mkDataFrame data
    let df ← match columns with
      | some cs => if cs.isEmpty then pure df0 else selectCols df0 cs
      | none => pure df0
    let desc ← describeDF df
    pure ⟨desc,
          (df.filter (fun p => numericCol p.2)).map Prod.fst,
          df.map (fun p => (p.1, inferDtype p.2)),
          df.map (fun p => (p.1, countNonNull p.2))⟩)

/-- The drawing call the plot handler reached, recording exactly the data
the call was given (server.py lines 55-69). -/
inductive PlotAction where
  | lineAll
  | lineXY (x y : String)
  | scatterXY (x y : String)
  | histogram (x : String)
  | heatmap
deriving DecidableEq, Repr

/-- Whether the frame has at least one numeric column (df.plot raises
TypeError("no numeric data to plot") otherwise). -/
def hasNumeric (df : ColMap) : Bool :=
  df.any (fun p => numericCol p.2)

/-- The dispatch on kind inside the plot handler's try block (server.py
lines 55-71), returning which drawing call succeeded or the message of the
exception that was raised:
  * line with x or y missing calls df.plot(kind="line") on the whole
    frame, which raises iff no column is numeric; with both given it
    plots y against x (KeyError on a missing label, TypeError when y is
    not numeric);
  * scatter requires both x and y, raising
    HTTPException(400, "x and y are required for scatter plots") -- whose
    textual form is "400: " ++ detail -- when either is missing, then
    evaluates df[x] and df[y] (KeyError on a missing label; matplotlib
    accepts both numeric and string sequences, and value-level scatter
    failures are not modelled since no claim depends on them);
  * histogram requires x, raising
    HTTPException(400, "x is required for histograms") when missing, then
    df[x].hist() (KeyError on a missing label, TypeError on a
    non-numeric column);
  * heatmap calls sns.heatmap(df.corr(), ...): with the pandas ≥ 2.0
    default numeric_only=False, corr() raises ValueError when a
    non-numeric column is present, and seaborn raises on a correlation
    matrix without columns;
  * any other kind raises HTTPException(400, "Unsupported plot type: " ++ kind). -/
def plotTry (df : ColMap) (kind : String) (x y : Option String) : Except String PlotAction :=
  if kind = "line" then
    match x, y with
    | some a, some b =>
      match List.lookup a df with
      | none => .error ("KeyError: " ++ a)
      | some _ =>
        match List.lookup b df with
        | none => .error ("KeyError: " ++ b)
        | some cb =>
          if numericCol cb then .ok (.lineXY a b) else .error "no numeric data to plot"
    | _, _ => if hasNumeric df then .ok .lineAll else .error "no numeric data to plot"
  else if kind = "scatter" then
    match x, y with
    | some a, some b =>
      match List.lookup a df with
      | none => .error ("KeyError: " ++ a)
      | some _ =>
        match List.lookup b df with
        | none => .error ("KeyError: " ++ b)
        | some _ => .ok (.scatterXY a b)
    | _, _ => .error "400: x and y are required for scatter plots"
  else if kind = "histogram" then
    match x with
    | none => .error "400: x is required for histograms"
    | some a =>
      match List.lookup a df with
      | none => .error ("KeyError: " ++ a)
      | some ca =>
        if numericCol ca then .ok (.histogram a) else .error "no numeric data to plot"
  else if kind = "heatmap" then
    if df.all (fun p => numericCol p.2) then
      if df.isEmpty then .error "zero-size array to reduction operation" else .ok .heatmap
    else .error "could not convert string to float"
  else .error ("400: Unsupported plot type: " ++ kind)

/-- What a plot request leaves behind: the HTTP response and the number of
matplotlib figures still open when the handler returns.  The handler runs
in a fresh figure context (no figure open beforehand). -/
structure PlotOutcome where
  response : Except (ℕ × String) PlotAction
  openFigures : ℕ
deriving DecidableEq, Repr

/-- The plot handler (server.py lines 42-84).  Control flow of the try
block: pd.DataFrame(data) runs first (so a construction failure happens
before any figure exists), then plt.figure() opens a figure, then the kind
dispatch and plt.savefig run, and only then plt.close() releases the
figure.  The except clause re-raises any exception as
HTTPException(400, str(e)) without closing the figure, so every exception
raised after plt.figure() leaves one figure open.  The title argument only
feeds plt.title, which neither fails nor shows up in any response, so it
is unused here. -/
def plot (data : ColMap) (kind : String) (x y : Option String)
    (_title : Option String) : PlotOutcome :=
  match mkDataFrame data with
  | .error e => ⟨.error (400, e), 0⟩
  | .ok df =>
    match plotTry df kind x y with
    | .error e => ⟨.error (400, e), 1⟩
    | .ok act => ⟨.ok act, 0⟩

/-- A cell of a CSV file: a list of characters.  CSV text itself is a list
of characters as well. -/
abbrev Cell := List Char

/-- The double-quote character, one of the four characters that force a
CSV writer to quote a cell. -/
def dquote : Char := Char.ofNat 34

/-- A cell is clean when writing it needs no quoting and reading it back
needs no unquoting: it holds no separator, record break, carriage return
or quote character. -/
def cleanCell (f : Cell) : Bool :=
  f.all (fun c => c ≠ ',' && c ≠ '\n' && c ≠ '\r' && c != dquote)

/-- One CSV record: its cells joined by commas. -/
def encodeRecord (r : List Cell) : List Char :=
  List.intercalate [','] r

/-- A tabular dataset (a header and its rows) encoded as CSV text: the
records joined by newlines.  This is the standard CSV encoding (the one
csv.writer or DataFrame.to_csv without an index produces), which leaves
clean cells untouched. -/
def encodeCSV (header : List Cell) (rows : List (List Cell)) : List Char :=
  List.intercalate ['\n'] ((header :: rows).map encodeRecord)

/-- pandas replaces an empty header cell at position i by "Unnamed: i". -/
def unnamedName (i : ℕ) : Cell :=
  ("Unnamed: " ++ toString i).toList

/-- Walk the header cells with their positions, replacing empty names. -/
def unnamedFix (i : ℕ) : List Cell → List Cell
  | [] => []
  | n :: rest => (if n = [] then unnamedName i else n) :: unnamedFix (i + 1) rest

/-- pandas deduplicates repeated header names: the (k+1)-st occurrence of
a name is renamed to name.k ("a", "a", "a" becomes "a", "a.1", "a.2").
The accumulator holds the original names already passed. -/
def mangleGo (seen : List Cell) : List Cell → List Cell
  | [] => []
  | n :: rest =>
    (if seen.count n = 0 then n else n ++ ('.' :: Nat.toDigits 10 (seen.count n)))
      :: mangleGo (n :: seen) rest

/-- Response body of the read_csv handler: the column names and the
reported shape (row count, column count).  The data field of the real
response (the row records) repeats the parsed cells and is not
claim-relevant, so it is not carried. -/
structure ReadCSVResult where
  columns : List Cell
  rows : ℕ
  cols : ℕ
deriving DecidableEq, Repr

/-- pd.read_csv on quote-free CSV text (on such text the quoting layer of
the real parser is the identity; no claim exercises quoted cells):
  * empty input raises EmptyDataError("No columns to parse from file"),
    and so does input whose records are all blank, since blank records
    are skipped (skip_blank_lines=True);
  * the first surviving record is the header; empty names become
    "Unnamed: i" and duplicated names are deduplicated;
  * a data record with more cells than the header raises a
    ParserError (the real message begins "Error tokenizing data"); one
    with fewer cells is padded with nulls and still counts as a row;
  * the shape is (number of data records, number of header cells).
Index-column inference (triggered when every data record has exactly one
cell more than the header) is not modelled; no claim exercises it. -/
def parseCSV (text : List Char) : Except String ReadCSVResult :=
  if text.isEmpty then .error "No columns to parse from file"
  else
    match (text.splitOn '\n').filter (fun r => !r.isEmpty) with
    | [] => .error "No columns to parse from file"
    | header :: dataRows =>
      let names := mangleGo [] (unnamedFix 0 (header.splitOn ','))
      if dataRows.all (fun r => (r.splitOn ',').length ≤ names.length) then
        .ok ⟨names, dataRows.length, names.length⟩
      else .error "Error tokenizing data"

/-- The read_csv handler (server.py lines 15-27): decode the upload (the
text is already carried as characters here), parse it, and report columns
and shape; any exception becomes a 400. -/
def read_csv (text : List Char) : Except (ℕ × String) ReadCSVResult :=
  toHTTP (parseCSV text)

/-- Whether the character list needle occurs contiguously inside hay; used
to state that an error detail mentions a phrase. -/
def containsSub (needle : List Char) : List Char → Bool
  | [] => needle.isEmpty
  | c :: rest => needle.isPrefixOf (c :: rest) || containsSub needle rest

/-- A response detail mentions a phrase when the phrase occurs in it. -/
def mentions (phrase detail : String) : Bool :=
  containsSub phrase.toList detail.toList

/-! Helper lemmas shared by the claim theorems. -/

/-- An HTTP response is either a success or carries status 400. -/
def isOkOr400 : Except (ℕ × String) α → Prop
  | .ok _ => True
  | .error (s, _) => s = 400

theorem toHTTP_isOkOr400 (r : Except String α) : isOkOr400 (toHTTP r) := by
  cases r with
  | ok a => trivial
  | error e => rfl

theorem bind_ok_eq (a : α) (f : α → Except ε β) : (Except.ok a : Except ε α) >>= f = f a := rfl

theorem plot_response_toHTTP (data : ColMap) (kind : String) (x y t : Option String) :
    (plot data kind x y t).response =
      toHTTP ((mkDataFrame data) >>= fun df => plotTry df kind x y) := by
  unfold plot
  cases hm : mkDataFrame data with
  | error e => rfl
  | ok df =>
    cases hp : plotTry df kind x y with
    | error e => simp [bind_ok_eq, hp, toHTTP]
    | ok a => simp [bind_ok_eq, hp, toHTTP]

theorem mkDataFrame_ok (data : ColMap) (h : sameLengths data = true) :
    mkDataFrame data = .ok data := by
  simp [mkDataFrame, h]

/-- C1: every request to any of the four handlers either succeeds or
produces an HTTP 400 response; no other error status is ever produced.
Each handler is the image under toHTTP of its try-block, and toHTTP maps a
raised exception with message e to the response .error (400, e), so the
detail of every error response is exactly the textual message str(e) of
the raised exception, by construction of toHTTP. -/
theorem handlers_single_error_kind :
    (∀ text, isOkOr400 (read_csv text)) ∧
    (∀ data, isOkOr400 (describe data)) ∧
    (∀ data kind x y t, isOkOr400 ((plot data kind x y t).response)) ∧
    (∀ data cs, isOkOr400 (analyze data cs)) := by
  refine ⟨fun text => toHTTP_isOkOr400 _, fun data => toHTTP_isOkOr400 _,
    fun data kind x y t => ?_, fun data cs => toHTTP_isOkOr400 _⟩
  rw [plot_response_toHTTP]
  exact toHTTP_isOkOr400 _

/-- C10: passing columns as the empty list to the analyze handler behaves
identically to omitting the columns argument, because Python's
`if columns:` is false both for None and for an empty list, so no
restriction is applied in either case. -/
theorem analyze_empty_columns_eq_none (data : ColMap) :
    analyze data (some []) = analyze data none := rfl

/-- C8 (code bug): on the failing input data = single column a = [1] with
kind = "pie", the plot handler raises after plt.figure() has opened a
figure and returns the 400 response without ever reaching plt.close(), so
one figure is still open when the handler returns — the figure is NOT
released on error paths, contradicting the claim (and the spec's stated
per-request release requirement): plt.close() is only executed on the
success path, and the except clause re-raises without closing. -/
theorem plot_error_leaves_figure_open :
    plot [("a", [Val.num 1])] "pie" none none none =
      ⟨.error (400, "400: Unsupported plot type: pie"), 1⟩ := by decide

/-- C2 counterexample: a scatter request with y missing whose column lists
have unequal lengths.  pd.DataFrame(data) raises before the scatter branch
is reached, so the handler returns 400 whose detail is the construction
message, which does not mention "x and y" — the claim as stated (every
scatter call with x or y missing yields a detail mentioning "x and y") is
false at this input. -/
theorem scatter_missing_y_unequal_cex :
    (plot [("a", [Val.num 1]), ("b", [Val.num 1, Val.num 2])]
        "scatter" (some "a") none none).response
      = .error (400, "All arrays must be of the same length") ∧
    mentions "x and y" "All arrays must be of the same length" = false := by decide

/-- C3 counterexample: a request with the unsupported kind "pie" whose
column lists have unequal lengths.  pd.DataFrame(data) raises before the
kind dispatch, so the 400 detail is the construction message and does not
name the kind — the claim as stated (every call with an unrecognized kind
yields a detail naming that kind) is false at this input. -/
theorem unsupported_kind_unequal_cex :
    (plot [("a", [Val.num 1]), ("b", [Val.num 1, Val.num 2])]
        "pie" (some "a") none none).response
      = .error (400, "All arrays must be of the same length") ∧
    mentions "pie" "All arrays must be of the same length" = false := by decide

/-- C4 counterexample: the empty list is a subset of the dataset's column
names, but Python's `if columns:` is false for it, so no restriction is
applied: description and dtypes cover both columns a and b instead of
exactly the empty subset — the claim as stated is false at this input. -/
theorem analyze_empty_subset_cex :
    (analyze [("a", [Val.num 1]), ("b", [Val.num 2])] (some [])).toOption.map
        (fun r => (r.description.map Prod.fst, r.dtypes.map Prod.fst))
      = some (["a", "b"], ["a", "b"]) ∧
    (["a", "b"] : List String) ≠ [] := by decide

/-- C5 counterexample: a heatmap request on a dataset with a non-numeric
column b.  With the pandas ≥ 2.0 default numeric_only=False, df.corr()
raises ValueError instead of restricting itself to the numeric columns,
so the handler returns 400 — the claim (heatmap always succeeds over the
numeric columns regardless of non-numeric columns) is false at this
input. -/
theorem heatmap_nonnumeric_cex :
    (plot [("a", [Val.num 1, Val.num 2]), ("b", [Val.str "u", Val.str "v"])]
        "heatmap" none none none).response
      = .error (400, "could not convert string to float") ∧
    (plot [("a", [Val.num 1, Val.num 2]), ("b", [Val.str "u", Val.str "v"])]
        "heatmap" none none none).response.isOk = false := by decide

theorem plotTry_scatter_missing (df : ColMap) (x y : Option String)
    (hxy : x = none ∨ y = none) :
    plotTry df "scatter" x y = .error "400: x and y are required for scatter plots" := by
  rcases hxy with h | h
  · subst h; rfl
  · subst h
    cases x with
    | none => rfl
    | some a => rfl

/-- C2 (amended): provided the dataframe construction succeeds (all column
lists share one length), a scatter request with x or y missing returns 400
and its detail mentions "x and y"; the detail is the textual form of the
HTTPException raised at server.py line 62 after the generic except clause
re-wraps it, namely "400: x and y are required for scatter plots". -/
theorem scatter_missing_xy_message (data : ColMap) (x y t : Option String)
    (hlen : sameLengths data = true) (hxy : x = none ∨ y = none) :
    (plot data "scatter" x y t).response =
      .error (400, "400: x and y are required for scatter plots") ∧
    mentions "x and y" "400: x and y are required for scatter plots" = true := by
  refine ⟨?_, by decide⟩
  rw [plot_response_toHTTP, mkDataFrame_ok data hlen, bind_ok_eq,
    plotTry_scatter_missing data x y hxy]
  rfl

theorem scatter_missing_xy_message_witness :
    (plot [("a", [Val.num 1])] "scatter" none none none).response =
      .error (400, "400: x and y are required for scatter plots") ∧
    mentions "x and y" "400: x and y are required for scatter plots" = true :=
  scatter_missing_xy_message [("a", [Val.num 1])] none none none (by decide) (Or.inl rfl)

theorem plotTry_unsupported (df : ColMap) (kind : String) (x y : Option String)
    (h1 : kind ≠ "line") (h2 : kind ≠ "scatter")
    (h3 : kind ≠ "histogram") (h4 : kind ≠ "heatmap") :
    plotTry df kind x y = .error ("400: Unsupported plot type: " ++ kind) := by
  simp [plotTry, h1, h2, h3, h4]

/-- C3 (amended): provided the dataframe construction succeeds (all column
lists share one length), a request whose kind is none of line, scatter,
histogram, heatmap returns 400 with a detail naming that kind; the detail
is the textual form of the HTTPException raised at server.py line 71 after
the generic except clause re-wraps it, namely
"400: Unsupported plot type: " followed by the kind. -/
theorem unsupported_kind_message (data : ColMap) (kind : String) (x y t : Option String)
    (hlen : sameLengths data = true)
    (hkind : kind ∉ ["line", "scatter", "histogram", "heatmap"]) :
    (plot data kind x y t).response =
      .error (400, "400: Unsupported plot type: " ++ kind) := by
  rw [plot_response_toHTTP, mkDataFrame_ok data hlen, bind_ok_eq,
    plotTry_unsupported data kind x y
      (by rintro rfl; exact hkind (by simp))
      (by rintro rfl; exact hkind (by simp))
      (by rintro rfl; exact hkind (by simp))
      (by rintro rfl; exact hkind (by simp))]
  rfl

theorem unsupported_kind_message_witness :
    (plot [("a", [Val.num 1])] "pie" none none none).response =
      .error (400, "400: Unsupported plot type: pie") :=
  unsupported_kind_message [("a", [Val.num 1])] "pie" none none none
    (by decide) (by decide)

theorem plotTry_heatmap_shape (df : ColMap) (x y : Option String) :
    plotTry df "heatmap" x y =
      (if df.all (fun p => numericCol p.2) then
        (if df.isEmpty then Except.error "zero-size array to reduction operation"
         else Except.ok PlotAction.heatmap)
       else Except.error "could not convert string to float") := rfl

/-- C5 (amended): the heatmap branch never reads x or y, so the whole
outcome of a heatmap request is independent of them; and when the frame
construction succeeds (equal column lengths), the dataset is non-empty and
all its columns are numeric, the handler succeeds by rendering the
correlation heatmap.  (With a non-numeric column present, pandas ≥ 2.0
df.corr() raises instead of restricting to the numeric columns, so
success cannot be promised beyond all-numeric datasets; see the
counterexample.) -/
theorem heatmap_ignores_xy_numeric_ok (data : ColMap) (x y x2 y2 t : Option String) :
    plot data "heatmap" x y t = plot data "heatmap" x2 y2 t ∧
    (sameLengths data = true → data ≠ [] → (∀ p ∈ data, numericCol p.2 = true) →
      (plot data "heatmap" x y t).response = .ok .heatmap) := by
  constructor
  · unfold plot
    cases hm : mkDataFrame data with
    | error e => rfl
    | ok df => rfl
  · intro hlen hne hnum
    have hall : data.all (fun p => numericCol p.2) = true := List.all_eq_true.mpr hnum
    have hemp : data.isEmpty = false := by
      cases data with
      | nil => exact absurd rfl hne
      | cons p rest => rfl
    rw [plot_response_toHTTP, mkDataFrame_ok data hlen, bind_ok_eq,
      plotTry_heatmap_shape data x y, hall, hemp]
    rfl

theorem heatmap_ignores_xy_numeric_ok_witness :
    plot [("a", [Val.num 1, Val.num 2])] "heatmap" (some "a") none none =
      plot [("a", [Val.num 1, Val.num 2])] "heatmap" none (some "q") none ∧
    (plot [("a", [Val.num 1, Val.num 2])] "heatmap" (some "a") none none).response =
      .ok .heatmap := by
  have h := heatmap_ignores_xy_numeric_ok [("a", [Val.num 1, Val.num 2])]
    (some "a") none none (some "q") none
  exact ⟨h.1, h.2 (by decide) (by decide) (by decide)⟩

/-- C9 counterexample: a line request with x provided and y omitted.  The
code's condition at server.py line 56 is `x is None or y is None`, so with
only one selector provided it still plots the whole frame
(df.plot(kind="line")) rather than plotting y against x as the claim's
"otherwise" branch states — at this input the handler performed the
plot-all-columns call and no y-against-x call exists. -/
theorem line_one_selector_cex :
    (plot [("a", [Val.num 1]), ("b", [Val.num 2])] "line" (some "a") none none).response
      = .ok .lineAll ∧
    ∀ b, (plot [("a", [Val.num 1]), ("b", [Val.num 2])] "line" (some "a") none none).response
      ≠ .ok (.lineXY "a" b) := by
  have h : (plot [("a", [Val.num 1]), ("b", [Val.num 2])] "line" (some "a") none none).response
      = .ok .lineAll := by decide
  refine ⟨h, fun b hb => ?_⟩
  rw [h] at hb
  exact PlotAction.noConfusion (Except.ok.inj hb)

theorem plotTry_line_missing (df : ColMap) (x y : Option String)
    (hxy : x = none ∨ y = none) :
    plotTry df "line" x y =
      (if hasNumeric df then Except.ok PlotAction.lineAll
       else Except.error "no numeric data to plot") := by
  rcases hxy with h | h
  · subst h; rfl
  · subst h
    cases x with
    | none => rfl
    | some a => rfl

theorem plotTry_line_some (df : ColMap) (a b : String) :
    plotTry df "line" (some a) (some b) =
      (match List.lookup a df with
       | none => Except.error ("KeyError: " ++ a)
       | some _ =>
         match List.lookup b df with
         | none => Except.error ("KeyError: " ++ b)
         | some cb =>
           if numericCol cb then Except.ok (PlotAction.lineXY a b)
           else Except.error "no numeric data to plot") := rfl

/-- C9 (amended): for a line request on a frame that constructs (equal
column lengths): if x is omitted OR y is omitted (not only when both are),
the handler calls df.plot(kind="line") on the whole frame — succeeding
when the frame has a numeric column to draw — and only when both x and y
are provided (x a present label, y a present numeric column) does it plot
y against x. -/
theorem line_dispatch (data : ColMap) (x y t : Option String)
    (hlen : sameLengths data = true) :
    ((x = none ∨ y = none) → hasNumeric data = true →
      (plot data "line" x y t).response = .ok .lineAll) ∧
    (∀ a b cb, x = some a → y = some b →
      (List.lookup a data).isSome = true → List.lookup b data = some cb →
      numericCol cb = true →
      (plot data "line" x y t).response = .ok (.lineXY a b)) := by
  constructor
  · intro hxy hnum
    rw [plot_response_toHTTP, mkDataFrame_ok data hlen, bind_ok_eq,
      plotTry_line_missing data x y hxy, if_pos hnum]
    rfl
  · intro a b cb hx hy ha hb hnum
    subst hx; subst hy
    obtain ⟨ca, hca⟩ := Option.isSome_iff_exists.mp ha
    rw [plot_response_toHTTP, mkDataFrame_ok data hlen, bind_ok_eq,
      plotTry_line_some data a b, hca, hb]
    simp [hnum, toHTTP]

theorem line_dispatch_witness :
    (plot [("a", [Val.num 1]), ("b", [Val.num 2])] "line" (some "a") (some "b") none).response
      = .ok (.lineXY "a" "b") :=
  (line_dispatch [("a", [Val.num 1]), ("b", [Val.num 2])] (some "a") (some "b") none
      (by decide)).2
    "a" "b" [Val.num 2] rfl rfl (by decide) (by decide) (by decide)

theorem describeCols_all_numeric (df : ColMap) (h : ∀ p ∈ df, numericCol p.2 = true) :
    describeCols df = df := by
  unfold describeCols
  rw [List.filter_eq_self.mpr h]
  exact ite_self df

theorem describeDF_all_numeric (df : ColMap) (hne : df ≠ [])
    (h : ∀ p ∈ df, numericCol p.2 = true) :
    describeDF df = .ok (df.map (fun p => (p.1, countNonNull p.2))) := by
  have hemp : df.isEmpty = false := by
    cases df with
    | nil => exact absurd rfl hne
    | cons p rest => rfl
  simp [describeDF, hemp, describeCols_all_numeric df h]

/-- C6: for a non-empty request body whose column lists share one length
and are all numeric, the describe handler succeeds and its statistics
report, for every column, a count equal to the number of non-null values
of that column (pandas describe counts the non-NaN entries; JSON nulls
land as NaN in a numeric column). -/
theorem describe_counts_nonnull (data : ColMap)
    (hlen : sameLengths data = true) (hne : data ≠ [])
    (hnum : ∀ p ∈ data, numericCol p.2 = true) :
    describe data = .ok ⟨data.map (fun p => (p.1, countNonNull p.2)),
                         data.map (fun p => (p.1, inferDtype p.2))⟩ := by
  unfold describe
  rw [mkDataFrame_ok data hlen, bind_ok_eq, describeDF_all_numeric data hne hnum, bind_ok_eq]
  rfl

theorem describe_counts_nonnull_witness :
    describe [("a", [Val.num 1, Val.null]), ("b", [Val.num 2, Val.num 3])] =
      .ok ⟨[("a", 1), ("b", 2)], [("a", Dtype.float64), ("b", Dtype.float64)]⟩ :=
  describe_counts_nonnull [("a", [Val.num 1, Val.null]), ("b", [Val.num 2, Val.num 3])]
    (by decide) (by decide) (by decide)

/-- C4 (amended): for a NON-EMPTY columns argument that is a subset of the
dataset's column names and selects only numeric columns (and a dataset
whose column lists share one length), the analyze handler succeeds and
both the description and the dtypes mapping contain exactly the columns of
that subset.  The two amendments forced by the code: an empty columns list
is falsy in Python, so it applies no restriction at all (see the
counterexample); and df.describe() keeps only the numeric columns of the
selection when the selection mixes numeric and non-numeric columns, while
the dtypes mapping always covers exactly the selection. -/
theorem analyze_subset_exact (data : ColMap) (cs : List String)
    (hlen : sameLengths data = true) (hcs : cs ≠ [])
    (hsub : ∀ c ∈ cs, (List.lookup c data).isSome = true)
    (hnum : ∀ c ∈ cs, ∀ col, List.lookup c data = some col → numericCol col = true) :
    ∃ r, analyze data (some cs) = .ok r ∧
      r.description.map Prod.fst = cs ∧ r.dtypes.map Prod.fst = cs := by
  set sel : ColMap := cs.map (fun c => (c, (List.lookup c data).getD [])) with hseldef
  have hall : cs.all (fun c => (List.lookup c data).isSome) = true :=
    List.all_eq_true.mpr hsub
  have hsel : selectCols data cs = .ok sel := by
    simp [selectCols, hall]
  have hselnum : ∀ p ∈ sel, numericCol p.2 = true := by
    intro p hp
    rw [hseldef] at hp
    obtain ⟨c, hc, rfl⟩ := List.mem_map.mp hp
    obtain ⟨col, hcol⟩ := Option.isSome_iff_exists.mp (hsub c hc)
    rw [hcol]
    exact hnum c hc col hcol
  have hselne : sel ≠ [] := by
    rw [hseldef]
    cases cs with
    | nil => exact absurd rfl hcs
    | cons c rest => simp
  have hempty : cs.isEmpty = false := by
    cases cs with
    | nil => exact absurd rfl hcs
    | cons c rest => rfl
  refine ⟨⟨sel.map (fun p => (p.1, countNonNull p.2)),
          (sel.filter (fun p => numericCol p.2)).map Prod.fst,
          sel.map (fun p => (p.1, inferDtype p.2)),
          sel.map (fun p => (p.1, countNonNull p.2))⟩, ?_, ?_, ?_⟩
  · unfold analyze
    rw [mkDataFrame_ok data hlen, bind_ok_eq]
    simp only [hempty, Bool.false_eq_true, if_false]
    rw [hsel, bind_ok_eq, describeDF_all_numeric sel hselne hselnum, bind_ok_eq]
    rfl
  · rw [hseldef]
    simp [List.map_map, Function.comp_def]
  · rw [hseldef]
    simp [List.map_map, Function.comp_def]

theorem analyze_subset_exact_witness :
    ∃ r, analyze [("a", [Val.num 1]), ("b", [Val.num 2])] (some ["b"]) = .ok r ∧
      r.description.map Prod.fst = ["b"] ∧ r.dtypes.map Prod.fst = ["b"] :=
  analyze_subset_exact [("a", [Val.num 1]), ("b", [Val.num 2])] ["b"]
    (by decide) (by decide) (by decide)
    (by intro c hc col hcol
        simp at hc
        subst hc
        simp [List.lookup] at hcol
        subst hcol
        decide)

theorem isEmpty_false_of_ne_nil {l : List α} (h : l ≠ []) : l.isEmpty = false := by
  cases l with
  | nil => exact absurd rfl h
  | cons a t => rfl

theorem intercalate_one (s : α) (f : List α) : List.intercalate [s] [f] = f := by
  simp [List.intercalate]

theorem intercalate_cons2 (s : α) (f g : List α) (rest : List (List α)) :
    List.intercalate [s] (f :: g :: rest) = f ++ s :: List.intercalate [s] (g :: rest) := by
  simp [List.intercalate, List.intersperse_cons_cons]

theorem not_mem_intercalate {s c : α} (hcs : c ≠ s) :
    ∀ parts : List (List α), (∀ p ∈ parts, c ∉ p) → c ∉ List.intercalate [s] parts := by
  intro parts
  induction parts with
  | nil =>
    intro _
    simp [List.intercalate]
  | cons f rest ih =>
    intro h
    cases rest with
    | nil =>
      rw [intercalate_one]
      exact h f (by simp)
    | cons g rest2 =>
      rw [intercalate_cons2]
      intro hc
      rcases List.mem_append.mp hc with hf | hsr
      · exact h f (by simp) hf
      · rcases List.mem_cons.mp hsr with rfl | hrest
        · exact hcs rfl
        · exact ih (fun p hp => h p (List.mem_cons_of_mem f hp)) hrest

theorem intercalate_head_ne_nil (s : α) (f : List α) (rest : List (List α)) (hf : f ≠ []) :
    List.intercalate [s] (f :: rest) ≠ [] := by
  cases rest with
  | nil =>
    rw [intercalate_one]
    exact hf
  | cons g rest2 =>
    rw [intercalate_cons2]
    simp

theorem cleanCell_spec (f : Cell) (h : cleanCell f = true) :
    ∀ c ∈ f, c ≠ ',' ∧ c ≠ '\n' ∧ c ≠ '\r' ∧ c ≠ dquote := by
  intro c hc
  have hco := List.all_eq_true.mp h c hc
  simp only [Bool.and_eq_true, decide_eq_true_eq, bne_iff_ne, and_assoc] at hco
  exact hco

theorem encodeRecord_no_newline (r : List Cell) (h : ∀ f ∈ r, cleanCell f = true) :
    '\n' ∉ encodeRecord r := by
  apply not_mem_intercalate (by decide)
  intro p hp hmem
  exact (cleanCell_spec p (h p hp) _ hmem).2.1 rfl

theorem encodeRecord_ne_nil (r : List Cell) (hr : r ≠ []) (h0 : ∀ f ∈ r, f ≠ []) :
    encodeRecord r ≠ [] := by
  cases r with
  | nil => exact absurd rfl hr
  | cons f rest => exact intercalate_head_ne_nil ',' f rest (h0 f (by simp))

theorem encodeRecord_splitOn (r : List Cell) (hr : r ≠ []) (h : ∀ f ∈ r, cleanCell f = true) :
    (encodeRecord r).splitOn ',' = r := by
  apply List.splitOn_intercalate
  · intro p hp hmem
    exact (cleanCell_spec p (h p hp) ',' hmem).1 rfl
  · exact hr

theorem unnamedFix_id (i : ℕ) (names : List Cell) (h : ∀ n ∈ names, n ≠ []) :
    unnamedFix i names = names := by
  induction names generalizing i with
  | nil => rfl
  | cons n rest ih =>
    unfold unnamedFix
    rw [if_neg (h n (by simp)), ih (i + 1) (fun m hm => h m (by simp [hm]))]

theorem mangleGo_id (seen : List Cell) (names : List Cell)
    (h : ∀ n ∈ names, seen.count n = 0) (hnd : names.Nodup) :
    mangleGo seen names = names := by
  induction names generalizing seen with
  | nil => rfl
  | cons n rest ih =>
    unfold mangleGo
    rw [if_pos (h n (by simp))]
    refine congrArg (List.cons n) (ih (n :: seen) (fun m hm => ?_) (List.nodup_cons.mp hnd).2)
    have hmn : m ≠ n := fun e => (List.nodup_cons.mp hnd).1 (e ▸ hm)
    simp [List.count_cons, h m (List.mem_cons_of_mem n hm), hmn]

/-- C7 (amended): the CSV round trip reproduces the column names and the
shape for every dataset with at least one column whose header names are
pairwise distinct, non-empty and quote-free (no separator, record break,
carriage return or quote character) and whose row cells are likewise
non-empty and quote-free, with every row as long as the header.  The
amendments are forced by the parser: duplicated header names come back
deduplicated as name.1, name.2, ... (see the counterexample), an empty
header name comes back as "Unnamed: i", a dataset without columns encodes
to text pd.read_csv rejects (EmptyDataError), a cell whose encoding needs
quoting is beyond the quote-free fragment modelled here, and a row of one
single empty cell encodes to a blank line that read_csv skips. -/
theorem csv_roundtrip (header : List Cell) (rows : List (List Cell))
    (hne : header ≠ [])
    (hhead : ∀ n ∈ header, cleanCell n = true ∧ n ≠ [])
    (hnd : header.Nodup)
    (hrows : ∀ r ∈ rows, r.length = header.length ∧ ∀ f ∈ r, cleanCell f = true ∧ f ≠ []) :
    read_csv (encodeCSV header rows) = .ok ⟨header, rows.length, header.length⟩ := by
  have hheadlen : header.length ≠ 0 := by
    cases header with
    | nil => exact absurd rfl hne
    | cons n rest => simp
  have hrne : ∀ r ∈ rows, r ≠ [] := by
    intro r hr h0
    have := (hrows r hr).1
    rw [h0] at this
    exact hheadlen this.symm
  have hrecne : ∀ rec ∈ (header :: rows).map encodeRecord, rec ≠ [] := by
    intro rec hrec
    obtain ⟨r, hr, rfl⟩ := List.mem_map.mp hrec
    rcases List.mem_cons.mp hr with rfl | hrow
    · exact encodeRecord_ne_nil r hne (fun f hf => (hhead f hf).2)
    · exact encodeRecord_ne_nil r (hrne r hrow) (fun f hf => ((hrows r hrow).2 f hf).2)
  have hnonl : ∀ rec ∈ (header :: rows).map encodeRecord, '\n' ∉ rec := by
    intro rec hrec
    obtain ⟨r, hr, rfl⟩ := List.mem_map.mp hrec
    rcases List.mem_cons.mp hr with rfl | hrow
    · exact encodeRecord_no_newline r (fun f hf => (hhead f hf).1)
    · exact encodeRecord_no_newline r (fun f hf => ((hrows r hrow).2 f hf).1)
  have htext_ne : encodeCSV header rows ≠ [] := by
    unfold encodeCSV
    rw [List.map_cons]
    exact intercalate_head_ne_nil '\n' _ _ (hrecne (encodeRecord header) (by simp))
  have hsplit : (encodeCSV header rows).splitOn '\n' = (header :: rows).map encodeRecord :=
    List.splitOn_intercalate _ '\n' hnonl (by simp)
  have hfilter : ((header :: rows).map encodeRecord).filter (fun r => !r.isEmpty) =
      (header :: rows).map encodeRecord := by
    apply List.filter_eq_self.mpr
    intro rec hrec
    rw [isEmpty_false_of_ne_nil (hrecne rec hrec)]
    rfl
  have hhead_split : (encodeRecord header).splitOn ',' = header :=
    encodeRecord_splitOn header hne (fun f hf => (hhead f hf).1)
  have hunnamed : unnamedFix 0 header = header :=
    unnamedFix_id 0 header (fun n hn => (hhead n hn).2)
  have hmangle : mangleGo [] header = header :=
    mangleGo_id [] header (fun n _ => List.count_nil n) hnd
  have hrowcheck : (rows.map encodeRecord).all
      (fun r => (r.splitOn ',').length ≤ header.length) = true := by
    apply List.all_eq_true.mpr
    intro rec hrec
    obtain ⟨r, hr, rfl⟩ := List.mem_map.mp hrec
    rw [encodeRecord_splitOn r (hrne r hr) (fun f hf => ((hrows r hr).2 f hf).1),
      (hrows r hr).1]
    simp
  have hparse : parseCSV (encodeCSV header rows) = .ok ⟨header, rows.length, header.length⟩ := by
    unfold parseCSV
    rw [isEmpty_false_of_ne_nil htext_ne]
    simp only [Bool.false_eq_true, if_false]
    rw [hsplit, List.map_cons] at *
    rw [hfilter]
    simp only [hhead_split, hunnamed, hmangle, hrowcheck, if_true, List.length_map]
  unfold read_csv
  rw [hparse]
  rfl

theorem csv_roundtrip_witness :
    read_csv (encodeCSV [['a'], ['b']] [[['1'], ['2']], [['3'], ['4']]]) =
      .ok ⟨[['a'], ['b']], 2, 2⟩ :=
  csv_roundtrip [['a'], ['b']] [[['1'], ['2']], [['3'], ['4']]]
    (by decide) (by decide) (by decide) (by decide)

/-- C7 counterexample: a dataset whose two columns are both named "a".
Encoding it to CSV and posting it is a success, but pandas deduplicates
repeated header names, so the returned columns are "a" and "a.1" rather
than the original names — the round-trip claim is false at this input
(the shape is still reproduced). -/
theorem csv_roundtrip_dup_names_cex :
    read_csv (encodeCSV [['a'], ['a']] [[['1'], ['2']]]) =
      .ok ⟨[['a'], ['a', '.', '1']], 1, 2⟩ ∧
    ([['a'], ['a', '.', '1']] : List Cell) ≠ [['a'], ['a']] := by decide
